import Mathlib

/-!
Shallow embedding of the trick-or-treat game's two core components:
the frame scheduler (Engine.js, here `src/unnamed/part_000`) and the
popover state machine (`src/js/popover.js`).

Modelling conventions:
- JS numbers are modelled as exact rationals (floating-point rounding is
  not modelled; every constant in the source is small and exact).
- The host clock (`Date.now()`), the host sine (`Math.sin`) and the random
  helper `randomIntegerInRange` (defined outside `src/`) are oracle
  parameters passed to the functions that sample them.
- DOM canvases are records carrying a node-identity `tag`, their `id`
  attribute and their pixel dimensions; the `#container` element is the
  list of `(tag, id)` pairs of its attached canvas children, in DOM order.
- A thrown JS exception is an `Except.error`; member access on `undefined`
  is the only throwing operation these two files can reach.
- External collaborators (BoardManager, allEnemies, player, AnimationQueue,
  Resources) are out of scope per the spec; their invocations are recorded
  as trace events rather than interpreted.
-/

/-- One canvas element: a DOM node identity tag (fresh per created canvas),
its `id` attribute, and its width/height in pixels. -/
structure Canvas where
  tag : ℕ
  id : String
  width : ℚ
  height : ℚ
  deriving DecidableEq, Repr

/-- Value of the popover manager's `this.ctx` slot. `undef` models the
freshly-constructed manager: the constructor body `var ctx = null;` declares
a local variable, so the instance field `this.ctx` remains `undefined` until
the first `_addCanvasToDOMWithID` or `removePopover` assigns it. `null` is
the value `removePopover` assigns; `ref c` is a live 2d context whose
`.canvas` is `c`. -/
inductive Ctx where
  | undef
  | null
  | ref (c : Canvas)
  deriving DecidableEq, Repr

/-- A thrown JS exception (the only kind reachable in these two files is a
TypeError from member access on `undefined`). -/
inductive JSError where
  | typeError (msg : String)
  deriving DecidableEq, Repr

/-- The record `this.costumeData` built by `_setCostumeDataForCostume`,
with its `imageLocation` point inlined as two fields. -/
structure CostumeData where
  costume : String
  spriteURL : String
  caption : String
  imageLocationX : ℚ
  imageLocationY : ℚ
  originalImageYLocation : ℚ
  deriving DecidableEq, Repr

/-- One firework particle of the end-of-game popover. -/
structure Particle where
  radius : ℚ
  lineWidth : ℚ
  alpha : ℚ
  centerX : ℚ
  centerY : ℚ
  color : String
  deriving DecidableEq, Repr

/-- The `this.fireworks` record: exactly three particles. -/
structure Fireworks where
  particle1 : Particle
  particle2 : Particle
  particle3 : Particle
  deriving DecidableEq, Repr

/-- A 2d-context drawing command, as issued by the popover code. Styles
(fill style, font) are attached to the commands they affect. -/
inductive DrawCmd where
  | clearRect (x y w h : ℚ)
  | fillRect (x y w h : ℚ) (style : String)
  | fillText (text : String) (x y : ℚ) (style font : String)
  | drawImage (url : String) (x y : ℚ)
  | strokeArc (cx cy radius lineWidth : ℚ) (colorTemplate : String) (alpha : ℚ)
  deriving DecidableEq, Repr

/-- State owned by the popover manager singleton plus the `#container`
DOM element it appends canvases to. `surface` is the list of drawing
commands currently on the active canvas (the previous frame's commands are
replaced on each clearing redraw). `nextTag` supplies fresh node tags. -/
structure PMState where
  ctx : Ctx
  costumeData : Option CostumeData
  fireworks : Option Fireworks
  surface : List DrawCmd
  container : List (ℕ × String)
  nextTag : ℕ
  deriving DecidableEq, Repr

/-- Modelled from the spec: `randomIntegerInRange` is defined outside
`src/` (in the app script); per the spec it returns a uniform random
integer in the given closed range. The stream of draws is modelled as an
oracle indexed by call number within one update. -/
structure RandOracle where
  val : ℕ → ℚ → ℚ → ℤ

/-- Modelled from the spec: the contract of `randomIntegerInRange(0, hi)` —
each draw is an integer lying in `[0, hi]`. In this repository every call
site passes lower bound 0. Uniformity of the distribution is a property of
the external RNG and is not modelled. -/
def RandOracle.Legit (r : RandOracle) : Prop :=
  ∀ n hi, 0 ≤ hi → 0 ≤ r.val n 0 hi ∧ (r.val n 0 hi : ℚ) ≤ hi

/-- Re-index an oracle so a later particle reads fresh draws. -/
def RandOracle.shift (r : RandOracle) (k : ℕ) : RandOracle :=
  ⟨fun n => r.val (n + k)⟩

namespace POPOVER_COLORS

def blueGray : String := "rgb(71, 70, 81)"

def gray : String := "rgb(186, 186, 186)"

def orange : String := "rgb(255, 184, 6)"

def green : String := "rgb(171, 252, 170)"

end POPOVER_COLORS

/-- The `colors` array captured by the firework update closures (the second
assignment in `_setFireworks`; the first, without alpha templates, is dead
code). -/
def fireworkColors : List String :=
  ["rgba(255, 255, 255, %alpha%)", "rgba(255, 184, 6, %alpha%)",
   "rgba(171, 252, 170, %alpha%)"]

/-- Update rule of `fireworks.particle1` (popover.js lines 96-111):
`speed = 4`, `ds = speed * dt`; `lineWidth += 100 * ds`; `alpha -= ds`;
then if the new alpha is below 0, restart with `alpha = 1`,
`lineWidth = 0`, a random center in the canvas and a random palette color.
`W`/`H` are the dimensions of the canvas captured by the closure. -/
def particle1Update (r : RandOracle) (W H dt : ℚ) (p : Particle) : Particle :=
  let ds := 4 * dt
  let lw := p.lineWidth + 100 * ds
  let a := p.alpha - ds
  if a < 0 then
    { p with
      alpha := 1, lineWidth := 0,
      centerX := (r.val 0 0 W : ℚ), centerY := (r.val 1 0 H : ℚ),
      color := fireworkColors.getD (r.val 2 0 2).toNat p.color }
  else
    { p with lineWidth := lw, alpha := a }

/-- Update rule of `fireworks.particle2` (popover.js lines 124-138):
`speed = 5`, `ds = speed * dt`; `alpha -= ds`; `radius += 18 * ds`; reset
on `alpha < 0` to `alpha = 1`, `radius = 0`, random center and color. -/
def particle2Update (r : RandOracle) (W H dt : ℚ) (p : Particle) : Particle :=
  let ds := 5 * dt
  let a := p.alpha - ds
  let rad := p.radius + 18 * ds
  if a < 0 then
    { p with
      alpha := 1, radius := 0,
      centerX := (r.val 0 0 W : ℚ), centerY := (r.val 1 0 H : ℚ),
      color := fireworkColors.getD (r.val 2 0 2).toNat p.color }
  else
    { p with alpha := a, radius := rad }

/-- Update rule of `fireworks.particle3` (popover.js lines 152-167):
`speed = 20`, `ds = speed * dt`; `lineWidth -= 3 * ds`; `radius += 10 * ds`;
reset on `lineWidth < 0` to `lineWidth = 15`, `radius = 0`, random center
and color. -/
def particle3Update (r : RandOracle) (W H dt : ℚ) (p : Particle) : Particle :=
  let ds := 20 * dt
  let lw := p.lineWidth - 3 * ds
  let rad := p.radius + 10 * ds
  if lw < 0 then
    { p with
      lineWidth := 15, radius := 0,
      centerX := (r.val 0 0 W : ℚ), centerY := (r.val 1 0 H : ℚ),
      color := fireworkColors.getD (r.val 2 0 2).toNat p.color }
  else
    { p with lineWidth := lw, radius := rad }

/-- The initial particle records assigned by `_setFireworks`. -/
def initialFireworks : Fireworks :=
  { particle1 := { radius := 50, lineWidth := 0, alpha := 1, centerX := 0,
                   centerY := 0, color := "rgba(255, 184, 6, %alpha%)" },
    particle2 := { radius := 0, lineWidth := 10, alpha := 1, centerX := 0,
                   centerY := 0, color := "rgba(255, 184, 6, %alpha%)" },
    particle3 := { radius := 0, lineWidth := 20, alpha := 1, centerX := 0,
                   centerY := 0, color := "rgba(255, 184, 6, %alpha%)" } }

/-- The costume kinds; `COSTUME_TYPE` is the (external) enumeration the
switch in `_setCostumeDataForCostume` matches on. -/
inductive COSTUME_TYPE where
  | dwarf
  | laserman
  | ghost
  deriving DecidableEq, Repr

namespace PopoverManager

/-- Function `_addCanvasToDOMWithID`: creates a fresh canvas with the given
id, appends it to `#container` (the previous canvas, if any, is NOT
removed), and points `this.ctx` at the new canvas. A costume popover gets
the game-board canvas dimensions `(bw, bh)`; any other canvas keeps the DOM
default 300x150. Returns the created canvas with the new state. -/
def addCanvasToDOMWithID (id : String) (bw bh : ℚ) (s : PMState) :
    Canvas × PMState :=
  let dims : ℚ × ℚ := if id = "costume-popover" then (bw, bh) else (300, 150)
  let c : Canvas := ⟨s.nextTag, id, dims.1, dims.2⟩
  (c, { s with
        ctx := Ctx.ref c,
        container := s.container ++ [(c.tag, c.id)],
        nextTag := s.nextTag + 1, surface := [] })

/-- The static draw commands of `showGameStartPopover` (popover.js lines
21-48), with `horizontalCenter = 720 / 2 = 360`. -/
def gameStartDraw : List DrawCmd :=
  [DrawCmd.fillRect 0 0 720 600 POPOVER_COLORS.blueGray,
   DrawCmd.fillText "This is Jack:" 360 80 POPOVER_COLORS.gray "32pt Amatic SC",
   DrawCmd.fillText "Help Jack find the" 360 300 POPOVER_COLORS.gray "32pt Amatic SC",
   DrawCmd.fillText "CANDYCORN" 360 350 POPOVER_COLORS.orange "32pt Amatic SC",
   DrawCmd.fillText "he dropped while" 360 390 POPOVER_COLORS.gray "32pt Amatic SC",
   DrawCmd.fillText "trick-or-treating!" 360 430 POPOVER_COLORS.gray "32pt Amatic SC",
   DrawCmd.fillText "[ space ] to continue" 360 560 POPOVER_COLORS.gray "24pt Amatic SC",
   DrawCmd.fillText "Jack" 396 80 POPOVER_COLORS.orange "32pt Amatic SC",
   DrawCmd.fillText "space" 306 560 POPOVER_COLORS.orange "24pt Amatic SC",
   DrawCmd.drawImage "images/jack.png" 309 60]

/-- Method `showGameStartPopover`: adds a `game-start-popover` canvas, sets
`this.costumeData = {}` (modelled as `none`: an object carrying none of the
costume fields), resizes the canvas to 720x600 and draws the static start
screen once. -/
def showGameStartPopover (bw bh : ℚ) (s : PMState) : PMState :=
  let p := addCanvasToDOMWithID "game-start-popover" bw bh s
  { p.2 with
    ctx := Ctx.ref { p.1 with width := 720, height := 600 },
    costumeData := none, surface := gameStartDraw }

/-- The content record selected by `_setCostumeDataForCostume` plus the
`imageLocation`/`originalImageYLocation` fields it then attaches:
`imageLocation = { x: ctx.canvas.width / 2 - 51, y: 60 }` and
`originalImageYLocation = 60`. -/
def setCostumeDataForCostume (costume : COSTUME_TYPE) (canvasWidth : ℚ) :
    CostumeData :=
  match costume with
  | COSTUME_TYPE.dwarf =>
    { costume := "DWARF", spriteURL := "images/dwarf-red.png",
      caption := "Rocks were meant for smashing.",
      imageLocationX := canvasWidth / 2 - 51, imageLocationY := 60,
      originalImageYLocation := 60 }
  | COSTUME_TYPE.laserman =>
    { costume := "LASERMAN", spriteURL := "images/glasses-blue.png",
      caption := "Lasers shmasers.",
      imageLocationX := canvasWidth / 2 - 51, imageLocationY := 60,
      originalImageYLocation := 60 }
  | COSTUME_TYPE.ghost =>
    { costume := "GHOST", spriteURL := "images/ghost-costume.png",
      caption := "100% Believeable.",
      imageLocationX := canvasWidth / 2 - 51, imageLocationY := 60,
      originalImageYLocation := 60 }

/-- The `update` closure attached to `costumeData` (popover.js lines
324-334). It is invoked with no argument (its `dt` parameter is unused) and
samples the absolute clock: `dy = 8 * sin(Date.now() / 800)`;
`imageLocation.y = originalImageYLocation + dy`. `sinFn` is the host
`Math.sin` and `now` the host clock reading. -/
def costumeUpdate (sinFn : ℚ → ℚ) (now : ℚ) (cd : CostumeData) : CostumeData :=
  let maxDY : ℚ := 8
  let frequencyControl : ℚ := 800
  let dy := maxDY * sinFn (now / frequencyControl)
  { cd with imageLocationY := cd.originalImageYLocation + dy }

/-- Method `presentDwarfPopover`: adds a `costume-popover` canvas (sized to
the game board) and installs the dwarf costume data. -/
def presentDwarfPopover (bw bh : ℚ) (s : PMState) : PMState :=
  let p := addCanvasToDOMWithID "costume-popover" bw bh s
  { p.2 with costumeData := some (setCostumeDataForCostume COSTUME_TYPE.dwarf p.1.width) }

/-- Method `presentLaserManPopover`. -/
def presentLaserManPopover (bw bh : ℚ) (s : PMState) : PMState :=
  let p := addCanvasToDOMWithID "costume-popover" bw bh s
  { p.2 with costumeData := some (setCostumeDataForCostume COSTUME_TYPE.laserman p.1.width) }

/-- Method `presentGhostPopover`. -/
def presentGhostPopover (bw bh : ℚ) (s : PMState) : PMState :=
  let p := addCanvasToDOMWithID "costume-popover" bw bh s
  { p.2 with costumeData := some (setCostumeDataForCostume COSTUME_TYPE.ghost p.1.width) }

/-- Stroke command issued for one particle in `_renderFireworks`: stroke
style is the color template with `%alpha%` bound to the particle's current
alpha; an arc of the particle's radius at its center with its line width. -/
def strokeOf (p : Particle) : DrawCmd :=
  DrawCmd.strokeArc p.centerX p.centerY p.radius p.lineWidth p.color p.alpha

/-- Draw commands of `_renderEndOfGamePopover`: clear (still at the old
canvas dimensions — the resize to 1280x700 happens after the clear), fill
the background, print the banner, then stroke the three particles in
property order (nothing is stroked when `this.fireworks` is still unset:
a `for..in` loop over `undefined` performs no iterations). -/
def renderEndOfGameDraw (c : Canvas) (fw : Option Fireworks) : List DrawCmd :=
  [DrawCmd.clearRect 0 0 c.width c.height,
   DrawCmd.fillRect 0 0 1280 700 POPOVER_COLORS.blueGray,
   DrawCmd.fillText "Happy Halloween" 640 350 POPOVER_COLORS.orange "48pt Amatic SC"]
  ++ (match fw with
      | none => []
      | some f => [strokeOf f.particle1, strokeOf f.particle2, strokeOf f.particle3])

/-- Method `_renderEndOfGamePopover` given the active canvas `c`: resizes
the canvas to 1280x700 and replaces its content with the end-of-game
drawing. -/
def renderEndOfGamePopover (c : Canvas) (s : PMState) : PMState :=
  { s with
    ctx := Ctx.ref { c with width := 1280, height := 700 },
    surface := renderEndOfGameDraw c s.fireworks }

/-- Method `presentGameFinishPopover`: adds a `game-end-popover` canvas,
installs the initial fireworks (`_setFireworks`), and renders the
end-of-game popover once. -/
def presentGameFinishPopover (bw bh : ℚ) (s : PMState) : PMState :=
  let p := addCanvasToDOMWithID "game-end-popover" bw bh s
  renderEndOfGamePopover p.1 { p.2 with fireworks := some initialFireworks }

/-- Method `removePopover` (popover.js lines 202-209). The guard is the
strict comparison `this.ctx === null`: the `undefined` value of a
freshly-constructed manager does NOT satisfy it, so execution continues to
`canvasContainer.removeChild(this.ctx.canvas)`, which throws a TypeError
reading `.canvas` of `undefined`. When a context is live, its canvas is
detached from `#container` and `this.ctx` is set to `null`. -/
def removePopover (s : PMState) : Except JSError PMState :=
  match s.ctx with
  | Ctx.null => Except.ok s
  | Ctx.undef =>
    Except.error (JSError.typeError "Cannot read property canvas of undefined")
  | Ctx.ref c =>
    Except.ok { s with
      ctx := Ctx.null, surface := [],
      container := s.container.filter (fun e => e.1 ≠ c.tag) }

/-- Method `_updateFireworks(dt)`: updates the three particles in property
order; each closure reads the canvas captured in `_setFireworks`, which is
the currently active end-of-game canvas. -/
def updateFireworks (r : RandOracle) (W H dt : ℚ) (f : Fireworks) : Fireworks :=
  { particle1 := particle1Update r W H dt f.particle1,
    particle2 := particle2Update (r.shift 3) W H dt f.particle2,
    particle3 := particle3Update (r.shift 6) W H dt f.particle3 }

/-- Method `PopoverManager.update(dt)` (popover.js lines 210-216). Both
`_isDisplaying...` predicates begin with `this.ctx !== null` followed by
`this.ctx.canvas.id === ...`; on the freshly-constructed manager
(`this.ctx` undefined) the first test passes and the member access throws.
With a live context, a costume popover delegates to the costume-data
closure (throwing if `costumeData` carries no such closure, which no
reachable costume state does), an end-of-game popover advances the
fireworks, and anything else is a no-op. -/
def update (sinFn : ℚ → ℚ) (r : RandOracle) (now dt : ℚ) (s : PMState) :
    Except JSError PMState :=
  match s.ctx with
  | Ctx.undef =>
    Except.error (JSError.typeError "Cannot read property canvas of undefined")
  | Ctx.null => Except.ok s
  | Ctx.ref c =>
    if c.id = "costume-popover" then
      match s.costumeData with
      | none =>
        Except.error (JSError.typeError "this.costumeData.update is not a function")
      | some cd => Except.ok { s with costumeData := some (costumeUpdate sinFn now cd) }
    else if c.id = "game-end-popover" then
      Except.ok { s with fireworks := s.fireworks.map (updateFireworks r c.width c.height dt) }
    else Except.ok s

/-- Draw commands of `_renderCostumePopover` (popover.js lines 250-289),
with `horizontalCenter = width / 2`. The image is drawn at the CURRENT
`imageLocation.y` (the assignment to `originalImageYLocation` on line 286
does not touch `imageLocation.y`). -/
def renderCostumeDraw (c : Canvas) (cd : CostumeData) : List DrawCmd :=
  [DrawCmd.clearRect 0 0 c.width c.height,
   DrawCmd.fillRect 0 0 c.width c.height "rgba(71, 70, 81, 0.9)",
   DrawCmd.fillText cd.costume (c.width / 2) (0.1 * c.height) POPOVER_COLORS.orange "32pt Amatic SC",
   DrawCmd.fillText cd.caption (c.width / 2) (0.7 * c.height) "white" "32pt Amatic SC",
   DrawCmd.fillText "COSTUME" (c.width / 2) (0.2 * c.height) POPOVER_COLORS.gray "24pt Amatic SC",
   DrawCmd.fillText "[ space ] to continue" (c.width / 2) (0.9 * c.height) POPOVER_COLORS.gray "24pt Amatic SC",
   DrawCmd.fillText "space" (c.width / 2 - 54) (0.9 * c.height) "orange" "24pt Amatic SC",
   DrawCmd.drawImage cd.spriteURL (c.width / 2 - 51) cd.imageLocationY]

/-- Method `PopoverManager.render()` (popover.js lines 227-234). A costume
popover clears and redraws its content and — as a side effect of
`_renderCostumePopover` line 286 — overwrites
`costumeData.originalImageYLocation` with `0.25 * canvasHeight`. An
end-of-game popover redraws via `_renderEndOfGamePopover`. Any other state
draws nothing. -/
def render (s : PMState) : Except JSError PMState :=
  match s.ctx with
  | Ctx.undef =>
    Except.error (JSError.typeError "Cannot read property canvas of undefined")
  | Ctx.null => Except.ok s
  | Ctx.ref c =>
    if c.id = "costume-popover" then
      match s.costumeData with
      | none =>
        Except.error (JSError.typeError "Cannot read property y of undefined")
      | some cd =>
        Except.ok
          { s with
            costumeData := some { cd with originalImageYLocation := 0.25 * c.height },
            surface := renderCostumeDraw c cd }
    else if c.id = "game-end-popover" then
      Except.ok (renderEndOfGamePopover c s)
    else Except.ok s

end PopoverManager

/-- The popover manager as constructed by `new PopoverManager()`:
`this.ctx` is `undefined` (the constructor only declares a local `ctx`),
no costume data, no fireworks, and the container is empty. -/
def initialPM : PMState :=
  { ctx := Ctx.undef, costumeData := none, fireworks := none, surface := [],
    container := [], nextTag := 0 }

/-- Iterate `PopoverManager.update` a given number of times, propagating a
thrown exception. -/
def PopoverManager.updateN (sinFn : ℚ → ℚ) (r : RandOracle) (now dt : ℚ) :
    ℕ → PMState → Except JSError PMState
  | 0, s => Except.ok s
  | n + 1, s =>
    match PopoverManager.update sinFn r now dt s with
    | Except.error e => Except.error e
    | Except.ok s1 => PopoverManager.updateN sinFn r now dt n s1

/-- The popover kinds a show operation can activate. -/
inductive PopoverKind where
  | gameStart
  | gameEnd
  | dwarf
  | laserman
  | ghost
  deriving DecidableEq, Repr

/-- The canvas id each show operation assigns. -/
def popoverID : PopoverKind → String
  | PopoverKind.gameStart => "game-start-popover"
  | PopoverKind.gameEnd => "game-end-popover"
  | PopoverKind.dwarf => "costume-popover"
  | PopoverKind.laserman => "costume-popover"
  | PopoverKind.ghost => "costume-popover"

/-- Dispatch to the show operation for a popover kind. -/
def present (k : PopoverKind) (bw bh : ℚ) (s : PMState) : PMState :=
  match k with
  | PopoverKind.gameStart => PopoverManager.showGameStartPopover bw bh s
  | PopoverKind.gameEnd => PopoverManager.presentGameFinishPopover bw bh s
  | PopoverKind.dwarf => PopoverManager.presentDwarfPopover bw bh s
  | PopoverKind.laserman => PopoverManager.presentLaserManPopover bw bh s
  | PopoverKind.ghost => PopoverManager.presentGhostPopover bw bh s

/-- Well-formedness of the popover state as established by the engine's
`init` (which shows the game-start popover before entering the loop) and
preserved by every popover operation: `this.ctx` is no longer `undefined`,
and whenever a costume popover is active its costume data is installed. -/
def PMState.WF (s : PMState) : Prop :=
  match s.ctx with
  | Ctx.undef => False
  | Ctx.null => True
  | Ctx.ref c => c.id = "costume-popover" → s.costumeData.isSome = true

/-- Trace events recording the engine's calls into its collaborators
(entities, board manager, animation queue) and its diagnostic logs. -/
inductive Ev where
  | canvasDims
  | enemyUpdate (i : ℕ)
  | playerUpdate
  | logMsg (msg : String)
  | laserUpdate (i : ℕ)
  | collectibles
  | animations
  | popoverUpdate
  | collisions
  | boardRender
  | animRender
  | enemyRender (i : ℕ)
  | playerRender
  | popoverRender
  deriving DecidableEq, Repr

/-- The game state the engine touches: the board canvas dimensions, the
current level's board dimensions, the entity collections (enemies and laser
obstacles abstracted to their count, the optional player to its presence)
and the popover manager state. -/
structure GameState where
  canvasW : ℚ
  canvasH : ℚ
  boardNumRows : ℕ
  boardNumCols : ℕ
  numEnemies : ℕ
  player : Option Unit
  numLasers : ℕ
  popover : PMState
  deriving DecidableEq, Repr

namespace Engine

/-- Function `updateCanvasDimensions`: syncs the board canvas to
`101 * currentLevelMap.numCols` x `101 * currentLevelMap.numRows`. -/
def updateCanvasDimensions (g : GameState) : GameState × List Ev :=
  ({ g with
     canvasW := 101 * (g.boardNumCols : ℚ),
     canvasH := 101 * (g.boardNumRows : ℚ) }, [Ev.canvasDims])

/-- Events of function `updateEntities` (part_000 lines 115-132): each
enemy's update, then the player's update — or, when the player is not yet
initialized, the diagnostic log `console.log('Wait for player to
initialize')` — then each laser obstacle's update. -/
def updateEntities (g : GameState) : List Ev :=
  (List.range g.numEnemies).map Ev.enemyUpdate
  ++ (match g.player with
      | some _ => [Ev.playerUpdate]
      | none => [Ev.logMsg "Wait for player to initialize"])
  ++ (List.range g.numLasers).map Ev.laserUpdate

/-- Function `update(dt)` (part_000 lines 95-102): canvas dimension sync,
entity updates, collectible updates (`BoardManager.updateCostumes`),
animation updates (`AnimationQueue.update`), the popover update, and the
collision check (`BoardManager.checkEnemyCollisions`) — in that order. An
exception thrown by the popover update propagates. -/
def update (sinFn : ℚ → ℚ) (r : RandOracle) (now dt : ℚ) (g : GameState) :
    Except JSError (GameState × List Ev) :=
  let g1 := (updateCanvasDimensions g).1
  match PopoverManager.update sinFn r now dt g1.popover with
  | Except.error e => Except.error e
  | Except.ok pm =>
    Except.ok ({ g1 with popover := pm },
      (updateCanvasDimensions g).2 ++ updateEntities g1
      ++ [Ev.collectibles, Ev.animations, Ev.popoverUpdate, Ev.collisions])

/-- Events of function `renderEntities` (part_000 lines 191-204): each
enemy's render, then the player's render or the same diagnostic log when
the player is not yet initialized. -/
def renderEntities (g : GameState) : List Ev :=
  (List.range g.numEnemies).map Ev.enemyRender
  ++ (match g.player with
      | some _ => [Ev.playerRender]
      | none => [Ev.logMsg "Wait for player to initialize"])

/-- Function `render()` (part_000 lines 167-172): board render, animation
renders, entity renders, popover render — in that order. -/
def render (g : GameState) : Except JSError (GameState × List Ev) :=
  match PopoverManager.render g.popover with
  | Except.error e => Except.error e
  | Except.ok pm =>
    Except.ok ({ g with popover := pm },
      [Ev.boardRender, Ev.animRender] ++ renderEntities g ++ [Ev.popoverRender])

/-- Actions the loop body `main` performs at its own level (beyond the
delegated update/render work): the two calls, the assignment to `lastTime`
and the `requestAnimationFrame` re-scheduling. -/
inductive MainAct where
  | callUpdate (dt : ℚ)
  | callRender
  | assignLastTime (t : ℚ)
  | requestFrame
  deriving DecidableEq, Repr

/-- The scheduler's own state: `lastTime` plus the game world it drives.
`lastTime` is the only variable of the engine scope that `main` itself
assigns. -/
structure SchedState where
  lastTime : ℚ
  game : GameState
  deriving DecidableEq, Repr

/-- The loop body `main` (part_000 lines 46-71): read `now`, compute
`dt = (now - lastTime) / 1000`, call `update(dt)`, call `render()`, set
`lastTime = now`, and finally request the next frame. The emitted action
list records these steps in program order. -/
def main (sinFn : ℚ → ℚ) (r : RandOracle) (now : ℚ) (w : SchedState) :
    Except JSError (SchedState × List MainAct) :=
  let dt := (now - w.lastTime) / 1000
  match update sinFn r now dt w.game with
  | Except.error e => Except.error e
  | Except.ok gu =>
    match render gu.1 with
    | Except.error e => Except.error e
    | Except.ok gr =>
      Except.ok ({ lastTime := now, game := gr.1 },
        [MainAct.callUpdate dt, MainAct.callRender, MainAct.assignLastTime now,
         MainAct.requestFrame])

end Engine

/-! Concrete fixtures used by witness theorems. -/

/-- A degenerate but legitimate random stream: every draw is 0. -/
def zeroOracle : RandOracle := ⟨fun _ _ _ => 0⟩

/-- The popover state right after the engine's `init` has shown the
game-start popover (board canvas 505x606 as for a 5x6 board). -/
def sampleStartPM : PMState := PopoverManager.showGameStartPopover 505 606 initialPM

/-- The popover state while a dwarf costume popover is active. -/
def sampleCostumePM : PMState := PopoverManager.presentDwarfPopover 505 606 initialPM

/-- A concrete game state on a 5x6 board with two enemies, one laser, the
game-start popover active, and the player not yet initialized. -/
def sampleGame : GameState :=
  { canvasW := 505, canvasH := 606, boardNumRows := 6, boardNumCols := 5,
    numEnemies := 2, player := none, numLasers := 1, popover := sampleStartPM }

/-! Helper lemmas shared by the claim theorems. -/

/-- The zero stream satisfies the range contract. -/
theorem zeroOracle_legit : zeroOracle.Legit :=
  fun _ hi h => ⟨le_refl 0, by exact_mod_cast h⟩

/-- The state after showing the game-start popover is well-formed. -/
theorem wf_showGameStart (bw bh : ℚ) (s : PMState) :
    (PopoverManager.showGameStartPopover bw bh s).WF := by
  intro h
  exact absurd h (by decide : ¬("game-start-popover" : String) = "costume-popover")

/-- The popover update is total on well-formed states, preserves
well-formedness and never reassigns `this.ctx`. -/
theorem pm_update_ok (sinFn : ℚ → ℚ) (r : RandOracle) (now dt : ℚ) (s : PMState)
    (h : s.WF) :
    ∃ s', PopoverManager.update sinFn r now dt s = Except.ok s' ∧ s'.WF ∧ s'.ctx = s.ctx := by
  obtain ⟨ctx, cd, fw, surf, cont, tag⟩ := s
  cases ctx with
  | undef => exact (h : False).elim
  | null => exact ⟨_, rfl, trivial, rfl⟩
  | ref c =>
    by_cases hid : c.id = "costume-popover"
    · have hcd : cd.isSome = true := h hid
      obtain ⟨cdv, rfl⟩ := Option.isSome_iff_exists.mp hcd
      refine ⟨⟨Ctx.ref c, some (PopoverManager.costumeUpdate sinFn now cdv), fw, surf,
          cont, tag⟩, ?_, fun _ => rfl, rfl⟩
      simp only [PopoverManager.update]
      rw [if_pos hid]
    · by_cases hid2 : c.id = "game-end-popover"
      · refine ⟨⟨Ctx.ref c, cd,
            Option.map (PopoverManager.updateFireworks r c.width c.height dt) fw, surf,
            cont, tag⟩, ?_, fun h2 => absurd h2 hid, rfl⟩
        simp only [PopoverManager.update]
        rw [if_neg hid, if_pos hid2]
      · refine ⟨⟨Ctx.ref c, cd, fw, surf, cont, tag⟩, ?_, fun h2 => absurd h2 hid, rfl⟩
        simp only [PopoverManager.update]
        rw [if_neg hid, if_neg hid2]

/-- The popover render is total on well-formed states and preserves
well-formedness. -/
theorem pm_render_ok (s : PMState) (h : s.WF) :
    ∃ s', PopoverManager.render s = Except.ok s' ∧ s'.WF := by
  obtain ⟨ctx, cd, fw, surf, cont, tag⟩ := s
  cases ctx with
  | undef => exact (h : False).elim
  | null => exact ⟨_, rfl, trivial⟩
  | ref c =>
    by_cases hid : c.id = "costume-popover"
    · have hcd : cd.isSome = true := h hid
      obtain ⟨cdv, rfl⟩ := Option.isSome_iff_exists.mp hcd
      refine ⟨⟨Ctx.ref c, some { cdv with originalImageYLocation := 0.25 * c.height }, fw,
          PopoverManager.renderCostumeDraw c cdv, cont, tag⟩, ?_, fun _ => rfl⟩
      simp only [PopoverManager.render]
      rw [if_pos hid]
    · by_cases hid2 : c.id = "game-end-popover"
      · refine ⟨⟨Ctx.ref { c with width := 1280, height := 700 }, cd, fw,
            PopoverManager.renderEndOfGameDraw c fw, cont, tag⟩, ?_, fun h2 => absurd h2 hid⟩
        simp only [PopoverManager.render]
        rw [if_neg hid, if_pos hid2]
        rfl
      · refine ⟨⟨Ctx.ref c, cd, fw, surf, cont, tag⟩, ?_, fun h2 => absurd h2 hid⟩
        simp only [PopoverManager.render]
        rw [if_neg hid, if_neg hid2]

/-- The engine update on a game whose popover state is well-formed: it
returns normally, with the popover advanced by the popover update and the
collaborator calls traced in program order. -/
theorem engine_update_eq (sinFn : ℚ → ℚ) (r : RandOracle) (now dt : ℚ) (g : GameState)
    (h : g.popover.WF) :
    ∃ pm, PopoverManager.update sinFn r now dt g.popover = Except.ok pm ∧ pm.WF ∧
      Engine.update sinFn r now dt g =
        Except.ok ({ (Engine.updateCanvasDimensions g).1 with popover := pm },
          [Ev.canvasDims] ++ Engine.updateEntities g
          ++ [Ev.collectibles, Ev.animations, Ev.popoverUpdate, Ev.collisions]) := by
  obtain ⟨pm, hpm, hwf, -⟩ := pm_update_ok sinFn r now dt g.popover h
  refine ⟨pm, hpm, hwf, ?_⟩
  simp only [Engine.update]
  rw [show (Engine.updateCanvasDimensions g).1.popover = g.popover from rfl, hpm]
  rfl

/-- The engine render on a game whose popover state is well-formed: it
returns normally, with the popover redrawn and the renders traced in draw
order. -/
theorem engine_render_eq (g : GameState) (h : g.popover.WF) :
    ∃ pm, PopoverManager.render g.popover = Except.ok pm ∧ pm.WF ∧
      Engine.render g = Except.ok ({ g with popover := pm },
        [Ev.boardRender, Ev.animRender] ++ Engine.renderEntities g ++ [Ev.popoverRender]) := by
  obtain ⟨pm, hpm, hwf⟩ := pm_render_ok g.popover h
  refine ⟨pm, hpm, hwf, ?_⟩
  simp only [Engine.render]
  rw [hpm]

/-- Claim C3: for every dt, the engine's `update(dt)` performs its
sub-steps in exactly this fixed order — (a) sync the render-surface
dimensions to the board dimensions, (b) update all enemies, then the
player, then the laser obstacles, (c) update collectibles, (d) update
active finite animations, (e) update the popover, (f) run collision
detection last — so collisions are checked only after all entity movement
of the frame. -/
theorem claim_C3_update_order (sinFn : ℚ → ℚ) (r : RandOracle) (now dt : ℚ)
    (g : GameState) (hwf : g.popover.WF) :
    ∃ g' evs,
      Engine.update sinFn r now dt g = Except.ok (g', evs) ∧
      evs = [Ev.canvasDims]
        ++ ((List.range g.numEnemies).map Ev.enemyUpdate
            ++ (match g.player with
                | some _ => [Ev.playerUpdate]
                | none => [Ev.logMsg "Wait for player to initialize"])
            ++ (List.range g.numLasers).map Ev.laserUpdate)
        ++ [Ev.collectibles, Ev.animations, Ev.popoverUpdate, Ev.collisions] ∧
      evs.getLast? = some Ev.collisions := by
  obtain ⟨pm, hpm, hwf1, hequ⟩ := engine_update_eq sinFn r now dt g hwf
  refine ⟨_, _, hequ, rfl, ?_⟩
  rw [List.getLast?_append_of_ne_nil _ (by simp)]
  rfl

/-- Claim C3 witness: the order theorem applied at a concrete game state
whose popover is well-formed. -/
theorem claim_C3_witness :
    ∃ g' evs,
      Engine.update (fun q => q) zeroOracle 0 0 sampleGame = Except.ok (g', evs) ∧
      evs = [Ev.canvasDims]
        ++ ((List.range sampleGame.numEnemies).map Ev.enemyUpdate
            ++ (match sampleGame.player with
                | some _ => [Ev.playerUpdate]
                | none => [Ev.logMsg "Wait for player to initialize"])
            ++ (List.range sampleGame.numLasers).map Ev.laserUpdate)
        ++ [Ev.collectibles, Ev.animations, Ev.popoverUpdate, Ev.collisions] ∧
      evs.getLast? = some Ev.collisions :=
  claim_C3_update_order (fun q => q) zeroOracle 0 0 sampleGame
    (wf_showGameStart 505 606 initialPM)

/-- Claim C1: for every dt ≥ 0 and every game state arising in the loop
(the engine's `init` shows the game-start popover before `main` first
runs, so the popover state is well-formed), `update(dt)` followed by
`render()` returns normally whether or not the player is initialized; when
the player is absent, the enemy and obstacle updates and all renders still
run, the player step does not run, and the diagnostic log is emitted in
both phases. -/
theorem claim_C1_update_render_no_throw (sinFn : ℚ → ℚ) (r : RandOracle) (now dt : ℚ)
    (g : GameState) (hdt : 0 ≤ dt) (hwf : g.popover.WF) :
    ∃ g1 e1 g2 e2,
      Engine.update sinFn r now dt g = Except.ok (g1, e1) ∧
      Engine.render g1 = Except.ok (g2, e2) ∧
      (g.player = none →
        Ev.logMsg "Wait for player to initialize" ∈ e1 ∧
        Ev.playerUpdate ∉ e1 ∧
        (∀ i, i < g.numEnemies → Ev.enemyUpdate i ∈ e1) ∧
        (∀ i, i < g.numLasers → Ev.laserUpdate i ∈ e1) ∧
        Ev.boardRender ∈ e2 ∧ Ev.animRender ∈ e2 ∧ Ev.popoverRender ∈ e2 ∧
        (∀ i, i < g.numEnemies → Ev.enemyRender i ∈ e2) ∧
        Ev.logMsg "Wait for player to initialize" ∈ e2 ∧
        Ev.playerRender ∉ e2) := by
  obtain ⟨pm, hpm, hwf1, hequ⟩ := engine_update_eq sinFn r now dt g hwf
  obtain ⟨pm2, hpm2, hwf2, heqr⟩ :=
    engine_render_eq { (Engine.updateCanvasDimensions g).1 with popover := pm } hwf1
  have hre : Engine.renderEntities { (Engine.updateCanvasDimensions g).1 with popover := pm }
      = Engine.renderEntities g := rfl
  rw [hre] at heqr
  refine ⟨_, _, _, _, hequ, heqr, ?_⟩
  intro hp
  simp only [Engine.updateEntities, Engine.renderEntities, hp]
  refine ⟨by simp, ?_, ?_, ?_, by simp, by simp, by simp, ?_, by simp, ?_⟩
  · simp
  · intro i hi
    simp [hi]
  · intro i hi
    simp [hi]
  · intro i hi
    simp [hi]
  · simp

/-- Claim C1 witness: both phases return normally at a concrete game state
with no player, dt = 0. -/
theorem claim_C1_witness :
    ∃ p1 p2, Engine.update (fun q => q) zeroOracle 0 0 sampleGame = Except.ok p1 ∧
      Engine.render p1.1 = Except.ok p2 := by
  obtain ⟨g1, e1, g2, e2, h1, h2, -⟩ :=
    claim_C1_update_render_no_throw (fun q => q) zeroOracle 0 0 sampleGame le_rfl
      (wf_showGameStart 505 606 initialPM)
  exact ⟨(g1, e1), (g2, e2), h1, h2⟩

/-- Claim C2: each invocation of the loop body reads the time `now`,
computes `dt = (now - lastFrameTimestamp) / 1000`, calls `update(dt)`,
then `render()`, then assigns `lastFrameTimestamp = now`, and only then
requests the next frame; the resulting game state is exactly the
render-after-update image, so `lastFrameTimestamp` is the only scheduler
variable `main` itself mutates. -/
theorem claim_C2_main_loop (sinFn : ℚ → ℚ) (r : RandOracle) (now : ℚ)
    (w : Engine.SchedState) (hwf : w.game.popover.WF) :
    ∃ w' acts gu eu gr er,
      Engine.main sinFn r now w = Except.ok (w', acts) ∧
      Engine.update sinFn r now ((now - w.lastTime) / 1000) w.game = Except.ok (gu, eu) ∧
      Engine.render gu = Except.ok (gr, er) ∧
      w'.lastTime = now ∧
      w'.game = gr ∧
      acts = [Engine.MainAct.callUpdate ((now - w.lastTime) / 1000),
              Engine.MainAct.callRender, Engine.MainAct.assignLastTime now,
              Engine.MainAct.requestFrame] := by
  obtain ⟨pm, hpm, hwf1, hequ⟩ :=
    engine_update_eq sinFn r now ((now - w.lastTime) / 1000) w.game hwf
  obtain ⟨pm2, hpm2, hwf2, heqr⟩ :=
    engine_render_eq { (Engine.updateCanvasDimensions w.game).1 with popover := pm } hwf1
  refine ⟨⟨now,
      { { (Engine.updateCanvasDimensions w.game).1 with popover := pm } with popover := pm2 }⟩,
    _, { (Engine.updateCanvasDimensions w.game).1 with popover := pm }, _,
    { { (Engine.updateCanvasDimensions w.game).1 with popover := pm } with popover := pm2 }, _,
    ?hmain, hequ, heqr, rfl, rfl, rfl⟩
  case hmain => simp only [Engine.main, hequ, heqr]

/-- Claim C2 witness: the loop body theorem applied at a concrete
scheduler state with lastTime = 0, now = 16. -/
theorem claim_C2_witness :
    ∃ w' acts gu eu gr er,
      Engine.main (fun q => q) zeroOracle 16 ⟨0, sampleGame⟩ = Except.ok (w', acts) ∧
      Engine.update (fun q => q) zeroOracle 16 ((16 - (0:ℚ)) / 1000) sampleGame
        = Except.ok (gu, eu) ∧
      Engine.render gu = Except.ok (gr, er) ∧
      w'.lastTime = 16 ∧
      w'.game = gr ∧
      acts = [Engine.MainAct.callUpdate ((16 - (0:ℚ)) / 1000),
              Engine.MainAct.callRender, Engine.MainAct.assignLastTime 16,
              Engine.MainAct.requestFrame] :=
  claim_C2_main_loop (fun q => q) zeroOracle 16 ⟨0, sampleGame⟩
    (wf_showGameStart 505 606 initialPM)

/-- Claim C4 counterexample: showing the game-end popover while the
game-start popover is active does NOT detach the game-start canvas — the
`#container` element afterwards still holds the old canvas (tag 0,
id `game-start-popover`) in front of the new one, refuting the claim's
"A's surface discarded and no longer attached to the rendering
container" (the removal helper `_removeCanvasFromDOM` is commented out and
`_addCanvasToDOMWithID` only appends). -/
theorem claim_C4_counterexample :
    (PopoverManager.presentGameFinishPopover 505 606 sampleStartPM).container
      = [(0, "game-start-popover"), (1, "game-end-popover")] ∧
    (0, "game-start-popover")
      ∈ (PopoverManager.presentGameFinishPopover 505 606 sampleStartPM).container := by
  refine ⟨rfl, ?_⟩
  decide

/-- Claim C4 (amended): calling a show operation for popover kind B while
popover A is active leaves the manager referencing exactly one popover
surface — the new canvas, carrying B's id — so popovers never stack in the
manager's state; however A's canvas is NOT detached: it remains a child of
the rendering container. -/
theorem claim_C4_show_replaces_reference (k : PopoverKind) (bw bh : ℚ) (s : PMState)
    (a : Canvas) (h1 : s.ctx = Ctx.ref a) (h2 : (a.tag, a.id) ∈ s.container) :
    ∃ c, (present k bw bh s).ctx = Ctx.ref c ∧ c.id = popoverID k ∧
      (a.tag, a.id) ∈ (present k bw bh s).container := by
  obtain ⟨ctx, cd, fw, surf, cont, tag⟩ := s
  cases k
  case gameStart => exact ⟨_, rfl, rfl, List.mem_append_left _ h2⟩
  case gameEnd => exact ⟨_, rfl, rfl, List.mem_append_left _ h2⟩
  case dwarf => exact ⟨_, rfl, rfl, List.mem_append_left _ h2⟩
  case laserman => exact ⟨_, rfl, rfl, List.mem_append_left _ h2⟩
  case ghost => exact ⟨_, rfl, rfl, List.mem_append_left _ h2⟩

/-- Claim C4 witness: the amended theorem applied with A = the active
game-start canvas and B = the game-end popover. -/
theorem claim_C4_witness :
    ∃ c, (present PopoverKind.gameEnd 505 606 sampleStartPM).ctx = Ctx.ref c ∧
      c.id = popoverID PopoverKind.gameEnd ∧
      (0, "game-start-popover") ∈ (present PopoverKind.gameEnd 505 606 sampleStartPM).container :=
  claim_C4_show_replaces_reference PopoverKind.gameEnd 505 606 sampleStartPM
    ⟨0, "game-start-popover", 720, 600⟩ rfl (by decide)

/-- Claim C8 (code bug): `remove()` is NOT total. On a freshly-constructed
manager `this.ctx` is `undefined` (the constructor's `var ctx = null;`
declares a local, never the instance field), the guard
`this.ctx === null` is false for `undefined`, and the method throws a
TypeError reading `this.ctx.canvas`; the claim (and the spec) say a
remove with no active popover is an error-free no-op. -/
theorem claim_C8_remove_fresh_throws :
    PopoverManager.removePopover initialPM =
      Except.error (JSError.typeError "Cannot read property canvas of undefined") := rfl

/-- Claim C9: while the game-start popover is active, `update(dt)` is a
no-op on the popover state for every dt, and the content was drawn once at
show time: after any number n of updates, rendering leaves the state — in
particular the drawn surface — exactly as rendering with n = 0 does, and
that surface is the static start screen drawn by `showGameStartPopover`. -/
theorem claim_C9_gamestart_update_noop (bw bh : ℚ) (s : PMState) (sinFn : ℚ → ℚ)
    (r : RandOracle) (now dt : ℚ) (n : ℕ) :
    PopoverManager.updateN sinFn r now dt n (PopoverManager.showGameStartPopover bw bh s)
      = Except.ok (PopoverManager.showGameStartPopover bw bh s) ∧
    PopoverManager.render (PopoverManager.showGameStartPopover bw bh s)
      = Except.ok (PopoverManager.showGameStartPopover bw bh s) ∧
    (PopoverManager.showGameStartPopover bw bh s).surface = PopoverManager.gameStartDraw := by
  have hstep : PopoverManager.update sinFn r now dt
      (PopoverManager.showGameStartPopover bw bh s)
      = Except.ok (PopoverManager.showGameStartPopover bw bh s) := rfl
  refine ⟨?_, rfl, rfl⟩
  induction n with
  | zero => rfl
  | succ k ih =>
    rw [PopoverManager.updateN, hstep]
    exact ih

/-- Claim C10: rendering a costume popover is not state-free — it
overwrites `costumeData.originalImageYLocation` with 0.25 times the
current surface height while leaving costume, caption and spriteURL
unchanged, so every subsequent update oscillates around
`0.25 * surfaceHeight` instead of the 60 installed at show time. -/
theorem claim_C10_costume_render_overwrites_base (s : PMState) (c : Canvas)
    (cd : CostumeData) (h1 : s.ctx = Ctx.ref c) (h2 : c.id = "costume-popover")
    (h3 : s.costumeData = some cd) :
    PopoverManager.render s = Except.ok
      { s with
        costumeData := some { cd with originalImageYLocation := 0.25 * c.height },
        surface := PopoverManager.renderCostumeDraw c cd } ∧
    (∀ sinFn now,
      (PopoverManager.costumeUpdate sinFn now
          { cd with originalImageYLocation := 0.25 * c.height }).imageLocationY
        = 0.25 * c.height + 8 * sinFn (now / 800)) ∧
    ({ cd with originalImageYLocation := 0.25 * c.height }).costume = cd.costume ∧
    ({ cd with originalImageYLocation := 0.25 * c.height }).caption = cd.caption ∧
    ({ cd with originalImageYLocation := 0.25 * c.height }).spriteURL = cd.spriteURL := by
  obtain ⟨ctx, cdf, fw, surf, cont, tag⟩ := s
  have h1' : ctx = Ctx.ref c := h1
  subst h1'
  have h3' : cdf = some cd := h3
  subst h3'
  refine ⟨?_, fun sinFn now => rfl, rfl, rfl, rfl⟩
  simp only [PopoverManager.render]
  rw [if_pos h2]

/-- Claim C10 witness: rendering a concrete dwarf costume popover (surface
606 high) moves the oscillation base to 151.5. -/
theorem claim_C10_witness :
    ∃ s', PopoverManager.render sampleCostumePM = Except.ok s' ∧
      s'.costumeData.map (fun cdv => cdv.originalImageYLocation)
        = some (0.25 * (606 : ℚ)) := by
  obtain ⟨h1, -, -, -, -⟩ := claim_C10_costume_render_overwrites_base sampleCostumePM
    ⟨0, "costume-popover", 505, 606⟩
    (PopoverManager.setCostumeDataForCostume COSTUME_TYPE.dwarf 505) rfl rfl rfl
  exact ⟨_, h1, rfl⟩

/-- Claim C5: the costume popover's vertical image position is set by every
update to `baseY + 8 * sin(t / 800)` where `baseY` is the stored
`originalImageYLocation` (installed as 60 at show time) and `t` is the
absolute clock reading — the update ignores `dt` entirely — so the position
is a pure function of (baseY, current time): two updates at the same
absolute time with the same baseY agree, and the popover update result does
not depend on dt or the random stream while a costume popover is active. -/
theorem claim_C5_costume_oscillation_pure :
    (∀ ct W, (PopoverManager.setCostumeDataForCostume ct W).originalImageYLocation = 60 ∧
      (PopoverManager.setCostumeDataForCostume ct W).imageLocationY = 60) ∧
    (∀ sinFn now cd, (PopoverManager.costumeUpdate sinFn now cd).imageLocationY
        = cd.originalImageYLocation + 8 * sinFn (now / 800)) ∧
    (∀ sinFn now cd cd', cd.originalImageYLocation = cd'.originalImageYLocation →
      (PopoverManager.costumeUpdate sinFn now cd).imageLocationY
        = (PopoverManager.costumeUpdate sinFn now cd').imageLocationY) ∧
    (∀ sinFn r r' now dt dt' s c, s.ctx = Ctx.ref c → c.id = "costume-popover" →
      PopoverManager.update sinFn r now dt s = PopoverManager.update sinFn r' now dt' s) := by
  refine ⟨fun ct W => by cases ct <;> exact ⟨rfl, rfl⟩, fun sinFn now cd => rfl,
    fun sinFn now cd cd' h => ?_, fun sinFn r r' now dt dt' s c h1 h2 => ?_⟩
  · simp only [PopoverManager.costumeUpdate, h]
  · obtain ⟨ctx, cdf, fw, surf, cont, tag⟩ := s
    have h1' : ctx = Ctx.ref c := h1
    subst h1'
    simp only [PopoverManager.update]
    rw [if_pos h2, if_pos h2]

/-- Claim C5 witness: two updates at the same absolute time with the same
baseY (dwarf and ghost costume data, both installed with baseY 60) yield
the same vertical position. -/
theorem claim_C5_witness :
    (PopoverManager.costumeUpdate (fun q => q) 0
        (PopoverManager.setCostumeDataForCostume COSTUME_TYPE.dwarf 505)).imageLocationY
      = (PopoverManager.costumeUpdate (fun q => q) 0
        (PopoverManager.setCostumeDataForCostume COSTUME_TYPE.ghost 505)).imageLocationY :=
  claim_C5_costume_oscillation_pure.2.2.1 (fun q => q) 0
    (PopoverManager.setCostumeDataForCostume COSTUME_TYPE.dwarf 505)
    (PopoverManager.setCostumeDataForCostume COSTUME_TYPE.ghost 505) rfl

/-- Claim C6: one update of firework particle 1 with time step dt grows
`strokeWidth` (source field `lineWidth`) by `100 * (4 * dt)` and shrinks
alpha by `4 * dt`; if the new alpha is below 0 the particle resets in the
same update to alpha exactly 1 and strokeWidth exactly 0, with an integer
center drawn in `[0, W] x [0, H]` and a color from the fixed 3-color
palette; otherwise center, color and radius are unchanged. -/
theorem claim_C6_particle1_step (r : RandOracle) (W H dt : ℚ) (p : Particle)
    (hr : r.Legit) (hW : 0 ≤ W) (hH : 0 ≤ H) :
    (p.alpha - 4 * dt < 0 →
      (particle1Update r W H dt p).alpha = 1 ∧
      (particle1Update r W H dt p).lineWidth = 0 ∧
      (∃ kx : ℤ, (particle1Update r W H dt p).centerX = (kx : ℚ) ∧
        0 ≤ (kx : ℚ) ∧ (kx : ℚ) ≤ W) ∧
      (∃ ky : ℤ, (particle1Update r W H dt p).centerY = (ky : ℚ) ∧
        0 ≤ (ky : ℚ) ∧ (ky : ℚ) ≤ H) ∧
      (particle1Update r W H dt p).color ∈ fireworkColors ∧
      (particle1Update r W H dt p).radius = p.radius) ∧
    (¬ p.alpha - 4 * dt < 0 →
      (particle1Update r W H dt p).lineWidth = p.lineWidth + 100 * (4 * dt) ∧
      (particle1Update r W H dt p).alpha = p.alpha - 4 * dt ∧
      (particle1Update r W H dt p).centerX = p.centerX ∧
      (particle1Update r W H dt p).centerY = p.centerY ∧
      (particle1Update r W H dt p).color = p.color ∧
      (particle1Update r W H dt p).radius = p.radius) := by
  constructor
  · intro hc
    have hu : particle1Update r W H dt p = { p with
        alpha := 1, lineWidth := 0,
        centerX := (r.val 0 0 W : ℚ), centerY := (r.val 1 0 H : ℚ),
        color := fireworkColors.getD (r.val 2 0 2).toNat p.color } := by
      simp only [particle1Update]
      rw [if_pos hc]
    obtain ⟨hx0, hx1⟩ := hr 0 W hW
    obtain ⟨hy0, hy1⟩ := hr 1 H hH
    obtain ⟨hc0, hc1⟩ := hr 2 2 (by norm_num)
    have hmem : fireworkColors.getD (r.val 2 0 2).toNat p.color ∈ fireworkColors := by
      have hle : r.val 2 0 2 ≤ 2 := by exact_mod_cast hc1
      have h3 : (r.val 2 0 2).toNat = 0 ∨ (r.val 2 0 2).toNat = 1 ∨
          (r.val 2 0 2).toNat = 2 := by omega
      rcases h3 with h | h | h <;> rw [h] <;> simp [fireworkColors]
    rw [hu]
    exact ⟨rfl, rfl, ⟨r.val 0 0 W, rfl, by exact_mod_cast hx0, hx1⟩,
      ⟨r.val 1 0 H, rfl, by exact_mod_cast hy0, hy1⟩, hmem, rfl⟩
  · intro hc
    have hu : particle1Update r W H dt p = { p with
        lineWidth := p.lineWidth + 100 * (4 * dt), alpha := p.alpha - 4 * dt } := by
      simp only [particle1Update]
      rw [if_neg hc]
    rw [hu]
    exact ⟨rfl, rfl, rfl, rfl, rfl, rfl⟩

/-- Claim C6 witness: a concrete reset — particle 1 starts at alpha 1, one
update with dt = 1 drives alpha to -3 and resets it to exactly 1 with
strokeWidth exactly 0 and a palette color. -/
theorem claim_C6_witness :
    (particle1Update zeroOracle 1280 700 1 initialFireworks.particle1).alpha = 1 ∧
    (particle1Update zeroOracle 1280 700 1 initialFireworks.particle1).lineWidth = 0 ∧
    (particle1Update zeroOracle 1280 700 1 initialFireworks.particle1).color
      ∈ fireworkColors := by
  obtain ⟨hreset, -⟩ := claim_C6_particle1_step zeroOracle 1280 700 1
    initialFireworks.particle1 zeroOracle_legit (by norm_num) (by norm_num)
  obtain ⟨h1, h2, -, -, h5, -⟩ := hreset (by norm_num [initialFireworks])
  exact ⟨h1, h2, h5⟩

/-- Claim C7: one update of firework particle 3 with time step dt grows
`radius` by `10 * (20 * dt)` and shrinks `strokeWidth` (source field
`lineWidth`) by `3 * (20 * dt)`; if the new strokeWidth is below 0 the
particle resets in the same update to strokeWidth exactly 15 and radius
exactly 0, with an integer center drawn in `[0, W] x [0, H]` and a color
from the fixed 3-color palette; otherwise center and color (and alpha) are
unchanged. -/
theorem claim_C7_particle3_step (r : RandOracle) (W H dt : ℚ) (p : Particle)
    (hr : r.Legit) (hW : 0 ≤ W) (hH : 0 ≤ H) :
    (p.lineWidth - 3 * (20 * dt) < 0 →
      (particle3Update r W H dt p).lineWidth = 15 ∧
      (particle3Update r W H dt p).radius = 0 ∧
      (∃ kx : ℤ, (particle3Update r W H dt p).centerX = (kx : ℚ) ∧
        0 ≤ (kx : ℚ) ∧ (kx : ℚ) ≤ W) ∧
      (∃ ky : ℤ, (particle3Update r W H dt p).centerY = (ky : ℚ) ∧
        0 ≤ (ky : ℚ) ∧ (ky : ℚ) ≤ H) ∧
      (particle3Update r W H dt p).color ∈ fireworkColors ∧
      (particle3Update r W H dt p).alpha = p.alpha) ∧
    (¬ p.lineWidth - 3 * (20 * dt) < 0 →
      (particle3Update r W H dt p).radius = p.radius + 10 * (20 * dt) ∧
      (particle3Update r W H dt p).lineWidth = p.lineWidth - 3 * (20 * dt) ∧
      (particle3Update r W H dt p).centerX = p.centerX ∧
      (particle3Update r W H dt p).centerY = p.centerY ∧
      (particle3Update r W H dt p).color = p.color ∧
      (particle3Update r W H dt p).alpha = p.alpha) := by
  constructor
  · intro hc
    have hu : particle3Update r W H dt p = { p with
        lineWidth := 15, radius := 0,
        centerX := (r.val 0 0 W : ℚ), centerY := (r.val 1 0 H : ℚ),
        color := fireworkColors.getD (r.val 2 0 2).toNat p.color } := by
      simp only [particle3Update]
      rw [if_pos hc]
    obtain ⟨hx0, hx1⟩ := hr 0 W hW
    obtain ⟨hy0, hy1⟩ := hr 1 H hH
    obtain ⟨hc0, hc1⟩ := hr 2 2 (by norm_num)
    have hmem : fireworkColors.getD (r.val 2 0 2).toNat p.color ∈ fireworkColors := by
      have hle : r.val 2 0 2 ≤ 2 := by exact_mod_cast hc1
      have h3 : (r.val 2 0 2).toNat = 0 ∨ (r.val 2 0 2).toNat = 1 ∨
          (r.val 2 0 2).toNat = 2 := by omega
      rcases h3 with h | h | h <;> rw [h] <;> simp [fireworkColors]
    rw [hu]
    exact ⟨rfl, rfl, ⟨r.val 0 0 W, rfl, by exact_mod_cast hx0, hx1⟩,
      ⟨r.val 1 0 H, rfl, by exact_mod_cast hy0, hy1⟩, hmem, rfl⟩
  · intro hc
    have hu : particle3Update r W H dt p = { p with
        lineWidth := p.lineWidth - 3 * (20 * dt),
        radius := p.radius + 10 * (20 * dt) } := by
      simp only [particle3Update]
      rw [if_neg hc]
    rw [hu]
    exact ⟨rfl, rfl, rfl, rfl, rfl, rfl⟩

/-- Claim C7 witness: a concrete reset — particle 3 starts at strokeWidth
20, one update with dt = 1 drives it to -40 and resets it to exactly 15
with radius exactly 0. -/
theorem claim_C7_witness :
    (particle3Update zeroOracle 1280 700 1 initialFireworks.particle3).lineWidth = 15 ∧
    (particle3Update zeroOracle 1280 700 1 initialFireworks.particle3).radius = 0 ∧
    (particle3Update zeroOracle 1280 700 1 initialFireworks.particle3).color
      ∈ fireworkColors := by
  obtain ⟨hreset, -⟩ := claim_C7_particle3_step zeroOracle 1280 700 1
    initialFireworks.particle3 zeroOracle_legit (by norm_num) (by norm_num)
  obtain ⟨h1, h2, -, -, h5, -⟩ := hreset (by norm_num [initialFireworks])
  exact ⟨h1, h2, h5⟩
